import Mathlib

/-!
Shallow embedding of the express402-relayer core: the admission pipeline
(src/lib/security.ts, given as src/unnamed/part_000), the transaction queue
(src/lib/transaction-queue.ts) and the HTTP handlers (src/server.ts).

Modelling conventions:
* The Redis kv store is modelled as explicit state (`RedisState`) threaded
  through the operations; the per-key get/set/del/exists/lpush/rpop primitives
  become association-list and list operations.  Key namespaces of the source
  ("nonce:{n}", "replay:{from}:{ts}", "rate_limit:{c}", "prepaid:{c}",
  "rollback:{id}", "tx:{id}", "transaction_queue") become separate fields.
* Decimal amount strings are kept as strings in the data (they appear verbatim
  in signed messages); the JavaScript `parseFloat` used for arithmetic is an
  abstract parameter `parse : String -> Int` (exact integers in place of IEEE
  doubles), passed explicitly to every function that does amount arithmetic.
* `ethers.verifyMessage` (ECDSA signer recovery) is an abstract parameter
  `recover : String -> String -> Option String` (message, signature to
  recovered address; `none` models the thrown exception on an invalid
  signature).
* The source field `from` is a Lean keyword and is rendered `fromAddr`.
-/

namespace Relayer

/-- One entry per key: the newest binding is at the front (a set is a cons). -/
def alookup {α : Type} (k : String) (m : List (String × α)) : Option α :=
  match m.find? (fun p => p.fst == k) with
  | some p => some p.snd
  | none => none

/-- `set key value`: the new binding shadows any older one. -/
def aset {α : Type} (k : String) (v : α) (m : List (String × α)) :
    List (String × α) :=
  (k, v) :: m

/-- `del key`: remove every binding of the key. -/
def adel {α : Type} (k : String) (m : List (String × α)) :
    List (String × α) :=
  m.filter (fun p => ¬ p.fst == k)

/-- JavaScript String.prototype.toLowerCase, modelled character-wise on the
underlying character list (address strings are ASCII); comparing the images is
comparing the lower-cased strings. -/
def lowercase (s : String) : List Char :=
  s.data.map Char.toLower

/-- Redis LPUSH: insert at the head of the list. -/
def lpush {α : Type} (x : α) (q : List α) : List α := x :: q

/-- Redis RPOP: remove and return the element at the tail of the list. -/
def rpop {α : Type} (q : List α) : Option (α × List α) :=
  match q.getLast? with
  | none => none
  | some x => some (x, q.dropLast)

/-- A queued transaction request (TransactionRequest of
src/lib/transaction-queue.ts; the source field `from` is `fromAddr`). -/
structure TransactionRequest where
  id : String
  fromAddr : String
  toAddr : String
  amount : String
  signature : String
  timestamp : Int
  priority : Nat
  retryCount : Nat
deriving DecidableEq, Repr

/-- The body of POST /api/transaction/submit (src/server.ts). -/
structure SubmitRequest where
  fromAddr : String
  toAddr : String
  amount : String
  signature : String
  message : String
  nonce : String
  timestamp : Int
  apiKey : String
  clientId : String
deriving DecidableEq, Repr

/-- The Redis keyspace the embedded operations touch, one field per key
namespace of the source. -/
structure RedisState where
  /-- keys "nonce:{nonce}" written by SecurityManager.checkReplayAttack -/
  nonceSeen : List String
  /-- keys "replay:{from}:{timestamp}" written by TransactionQueue.isReplayAttack -/
  replaySeen : List (String × Int)
  /-- keys "rate_limit:{clientId}" (fixed-window counters) -/
  rateLimit : List (String × Nat)
  /-- keys "prepaid:{clientId}" (decimal strings, parseFloat images modelled as integers) -/
  prepaid : List (String × Int)
  /-- keys "rollback:{transactionId}" (opaque stored state) -/
  rollback : List (String × String)
  /-- keys "tx:{id}" (stored request ids) -/
  txStore : List String
  /-- keys "tx_result:{id}" (status records, the status string is kept) -/
  txResult : List (String × String)
  /-- the Redis list "transaction_queue" (head of the Lean list = left end) -/
  queue : List TransactionRequest
deriving DecidableEq, Repr

/-- The state of an empty Redis instance. -/
def RedisState.empty : RedisState :=
  { nonceSeen := [], replaySeen := [], rateLimit := [], prepaid := [],
    rollback := [], txStore := [], txResult := [], queue := [] }

/-- SecurityConfig of src/unnamed/part_000 (the two amount limits are kept in
parsed form, as the source only ever uses their parseFloat images). -/
structure SecurityConfig where
  apiKey : String
  maxRequestsPerMinute : Nat
  maxTransactionAmount : Int
deriving Repr

namespace SecurityManager

/-- SecurityManager.verifyApiKey: plain equality with the configured key. -/
def verifyApiKey (cfg : SecurityConfig) (k : String) : Bool :=
  k == cfg.apiKey

/-- SecurityManager.checkRateLimit: fixed-window counter keyed by clientId;
absent key is set to 1, a counter at or above the maximum rejects, otherwise
the counter is incremented.  Returns (allowed?, new state). -/
def checkRateLimit (cfg : SecurityConfig) (clientId : String)
    (st : RedisState) : Bool × RedisState :=
  match alookup clientId st.rateLimit with
  | none => (true, { st with rateLimit := aset clientId 1 st.rateLimit })
  | some n =>
    if cfg.maxRequestsPerMinute ≤ n then (false, st)
    else (true, { st with rateLimit := aset clientId (n + 1) st.rateLimit })

/-- SecurityManager.checkReplayAttack: returns true (= reject) when the nonce
key already exists or when |now - timestamp| > 300000 ms; otherwise it records
the nonce key (side effect on the accepting path) and returns false.  The
record is keyed by the nonce alone. -/
def checkReplayAttack (nonce : String) (timestamp now : Int)
    (st : RedisState) : Bool × RedisState :=
  if nonce ∈ st.nonceSeen then (true, st)
  else if 300000 < (now - timestamp).natAbs then (true, st)
  else (false, { st with nonceSeen := nonce :: st.nonceSeen })

/-- SecurityManager.validateSignature: recover the signer of the given message
and compare, lower-cased, with the expected address; a recovery failure
(thrown exception, modelled as none) yields false. -/
def validateSignature (recover : String → String → Option String)
    (message signature expectedAddress : String) : Bool :=
  match recover message signature with
  | none => false
  | some a => lowercase a == lowercase expectedAddress

/-- SecurityManager.checkTransactionAmount: parsed amount at most the
configured maximum. -/
def checkTransactionAmount (parse : String → Int) (cfg : SecurityConfig)
    (amount : String) : Bool :=
  parse amount ≤ cfg.maxTransactionAmount

/-- SecurityManager.checkPrepaidBalance: false when no balance is stored,
otherwise stored balance at least the parsed amount. -/
def checkPrepaidBalance (parse : String → Int) (clientId amount : String)
    (st : RedisState) : Bool :=
  match alookup clientId st.prepaid with
  | none => false
  | some b => parse amount ≤ b

/-- SecurityManager.deductPrepaidBalance: when a balance is stored, store
balance - amount (no lower bound is enforced here); otherwise do nothing. -/
def deductPrepaidBalance (parse : String → Int) (clientId amount : String)
    (st : RedisState) : RedisState :=
  match alookup clientId st.prepaid with
  | none => st
  | some b =>
    { st with prepaid := aset clientId (b - parse amount) st.prepaid }

/-- SecurityManager.addPrepaidBalance: store (stored balance, defaulting to 0)
plus the amount. -/
def addPrepaidBalance (parse : String → Int) (clientId amount : String)
    (st : RedisState) : RedisState :=
  { st with
    prepaid :=
      aset clientId ((alookup clientId st.prepaid).getD 0 + parse amount)
        st.prepaid }

/-- SecurityManager.createRollbackPoint: store the given state blob under
"rollback:{transactionId}". -/
def createRollbackPoint (transactionId state : String) (st : RedisState) :
    RedisState :=
  { st with rollback := aset transactionId state st.rollback }

/-- SecurityManager.executeRollback: read the rollback point; when present,
run performRollback (which in the source only logs: it touches no ledger) and
delete the key.  Returns the stored blob and the new state. -/
def executeRollback (transactionId : String) (st : RedisState) :
    Option String × RedisState :=
  match alookup transactionId st.rollback with
  | none => (none, st)
  | some s => (some s, { st with rollback := adel transactionId st.rollback })

/-- SecurityManager.performSecurityCheck: the six checks in source order, each
short-circuiting with its error string; checkRateLimit and checkReplayAttack
thread their state changes.  Returns (none for valid / some error, state). -/
def performSecurityCheck (parse : String → Int)
    (recover : String → String → Option String) (cfg : SecurityConfig)
    (req : SubmitRequest) (now : Int) (st : RedisState) :
    Option String × RedisState :=
  if ¬ verifyApiKey cfg req.apiKey then (some "Invalid API key", st)
  else
    match checkRateLimit cfg req.clientId st with
    | (false, st1) => (some "Rate limit exceeded", st1)
    | (true, st1) =>
      match checkReplayAttack req.nonce req.timestamp now st1 with
      | (true, st2) => (some "Replay attack detected", st2)
      | (false, st2) =>
        if ¬ validateSignature recover req.message req.signature req.fromAddr
        then (some "Invalid signature", st2)
        else if ¬ checkTransactionAmount parse cfg req.amount then
          (some "Transaction amount exceeds limit", st2)
        else if ¬ checkPrepaidBalance parse req.clientId req.amount st2 then
          (some "Insufficient prepaid balance", st2)
        else (none, st2)

end SecurityManager

namespace TransactionQueue

/-- The canonical message of TransactionQueue.validateSignature:
"from:to:amount:timestamp" built from the queued request's own fields. -/
def canonicalMessage (r : TransactionRequest) : String :=
  r.fromAddr ++ ":" ++ r.toAddr ++ ":" ++ r.amount ++ ":" ++ toString r.timestamp

/-- TransactionQueue.validateSignature: recover the signer of the canonical
message and compare, lower-cased, with the request's from address. -/
def validateSignature (recover : String → String → Option String)
    (r : TransactionRequest) : Bool :=
  match recover (canonicalMessage r) r.signature with
  | none => false
  | some a => lowercase a == lowercase r.fromAddr

/-- TransactionQueue.isReplayAttack: keyed by (from, timestamp); when the key
is absent it is recorded (side effect on the accepting path) and false is
returned, otherwise true. -/
def isReplayAttack (r : TransactionRequest) (st : RedisState) :
    Bool × RedisState :=
  if (r.fromAddr, r.timestamp) ∈ st.replaySeen then (true, st)
  else (false, { st with replaySeen := (r.fromAddr, r.timestamp) :: st.replaySeen })

/-- TransactionQueue.addTransaction: throw on an invalid canonical signature
or a replay, otherwise store the request under "tx:{id}" and LPUSH its record
onto "transaction_queue".  A thrown error leaves the state as it was (the
replay check mutates only on its accepting path). -/
def addTransaction (recover : String → String → Option String)
    (r : TransactionRequest) (st : RedisState) : Except String RedisState :=
  if ¬ validateSignature recover r then .error "Invalid signature"
  else
    match isReplayAttack r st with
    | (true, _) => .error "Replay attack detected"
    | (false, st1) =>
      .ok { st1 with txStore := r.id :: st1.txStore,
                     queue := lpush r st1.queue }

/-- TransactionQueue.handleFailedTransaction: increment retryCount; below 3
LPUSH the request back onto "transaction_queue", otherwise write a "failed"
status record under "tx_result:{id}". -/
def handleFailedTransaction (r : TransactionRequest) (st : RedisState) :
    RedisState :=
  let r1 := { r with retryCount := r.retryCount + 1 }
  if r1.retryCount < 3 then { st with queue := lpush r1 st.queue }
  else { st with txResult := aset r.id "failed" st.txResult }

/-- The order in which repeated RPOPs of TransactionQueue.processQueue drain a
queue list. -/
def popOrderAux {α : Type} : Nat → List α → List α
  | 0, _ => []
  | n + 1, q =>
    match rpop q with
    | none => []
    | some (x, q1) => x :: popOrderAux n q1

/-- The full drain order of a queue under repeated RPOP. -/
def popOrder {α : Type} (q : List α) : List α :=
  popOrderAux q.length q

end TransactionQueue

/-- The externally visible side effects of the submit handler, in program
order. -/
inductive Effect where
  | enqueue (id : String)
  | debit (clientId amount : String)
deriving DecidableEq, Repr

/-- The HTTP-level outcome of POST /api/transaction/submit: success with a
transactionId, a 400 reject carrying the security-check error, or the 500
catch-all ("Transaction submission failed") for a thrown enqueue error. -/
inductive SubmitResult where
  | ok (transactionId : String)
  | reject (error : String)
  | failure (error : String)
deriving DecidableEq, Repr

namespace Server

open SecurityManager TransactionQueue

/-- The transactionRequest object built by the submit handler: a fresh uuid,
the request's from/to/amount/signature, timestamp set to Date.now() (the
server's receipt time, NOT the intent's timestamp field), priority 1,
retryCount 0. -/
def mkTransactionRequest (req : SubmitRequest) (id : String) (now : Int) :
    TransactionRequest :=
  { id := id, fromAddr := req.fromAddr, toAddr := req.toAddr,
    amount := req.amount, signature := req.signature, timestamp := now,
    priority := 1, retryCount := 0 }

/-- POST /api/transaction/submit (src/server.ts): run performSecurityCheck;
on failure reply 400 with its error; otherwise build the transactionRequest,
addTransaction (a thrown error is caught and reported as the generic 500
failure), then deductPrepaidBalance, then reply success.  The third component
records the externally visible effects in program order: the enqueue strictly
precedes the prepaid debit. -/
def submit (parse : String → Int)
    (recover : String → String → Option String) (cfg : SecurityConfig)
    (req : SubmitRequest) (id : String) (now : Int) (st : RedisState) :
    SubmitResult × RedisState × List Effect :=
  match performSecurityCheck parse recover cfg req now st with
  | (some e, st1) => (.reject e, st1, [])
  | (none, st1) =>
    match addTransaction recover (mkTransactionRequest req id now) st1 with
    | .error _ => (.failure "Transaction submission failed", st1, [])
    | .ok st2 =>
      (.ok id, deductPrepaidBalance parse req.clientId req.amount st2,
        [Effect.enqueue id, Effect.debit req.clientId req.amount])

/-- GET /api/prepaid/:clientId/balance: reply with the stored balance string,
or "0" when the key is absent (the JavaScript `balance or "0"` also maps an
empty stored string to "0"); the stored integer is rendered back to its
string. -/
def getPrepaidBalance (clientId : String) (st : RedisState) : String :=
  match (alookup clientId st.prepaid).map toString with
  | none => "0"
  | some s => if s = "" then "0" else s

/-- POST /api/prepaid/add: api-key gate, then addPrepaidBalance. -/
def prepaidAdd (parse : String → Int) (cfg : SecurityConfig)
    (clientId amount apiKey : String) (st : RedisState) : RedisState :=
  if verifyApiKey cfg apiKey then addPrepaidBalance parse clientId amount st
  else st

/-- POST /api/transaction/:id/rollback: api-key gate, then executeRollback. -/
def rollbackEndpoint (cfg : SecurityConfig) (id apiKey : String)
    (st : RedisState) : RedisState :=
  if verifyApiKey cfg apiKey then (SecurityManager.executeRollback id st).snd
  else st

end Server

/-- The three ledger-touching API operations: POST /api/prepaid/add,
POST /api/transaction/submit and POST /api/transaction/:id/rollback. -/
inductive LedgerOp where
  | credit (clientId amount apiKey : String)
  | submitIntent (req : SubmitRequest) (id : String) (now : Int)
  | rollbackOp (id apiKey : String)

/-- Run one API operation against the store. -/
def stepOp (parse : String → Int) (recover : String → String → Option String)
    (cfg : SecurityConfig) (st : RedisState) : LedgerOp → RedisState
  | .credit c a k => Server.prepaidAdd parse cfg c a k st
  | .submitIntent req id now => (Server.submit parse recover cfg req id now st).2.1
  | .rollbackOp id k => Server.rollbackEndpoint cfg id k st

/-- Run a sequence of API operations left to right. -/
def runOps (parse : String → Int) (recover : String → String → Option String)
    (cfg : SecurityConfig) (st : RedisState) (ops : List LedgerOp) : RedisState :=
  ops.foldl (stepOp parse recover cfg) st

/-- Every stored prepaid balance is nonnegative. -/
def ledgerNonneg (st : RedisState) : Prop :=
  ∀ p ∈ st.prepaid, 0 ≤ p.2

/-- The precondition of the spec data model on credit operations: the credited
amount is a nonnegative decimal (its parse is nonnegative). -/
def creditNonneg (parse : String → Int) : LedgerOp → Bool
  | .credit _ a _ => decide (0 ≤ parse a)
  | _ => true

/-! Concrete instances used by the closed theorems below: a concrete parse
function, a concrete recovery oracle (the recovered address is the signature
string itself), a configuration and a handful of request/state fixtures. -/

/-- A concrete parseFloat instance for the integral amount strings used in the
fixtures. -/
def parse0 : String → Int :=
  fun s => if s = "1" then 1 else if s = "4" then 4 else if s = "9" then 9 else 0

/-- A concrete recovery oracle: the recovered address is the signature. -/
def recover0 : String → String → Option String := fun _ s => some s

/-- A concrete recovery oracle that fails exactly on the canonical message
built from reqC5's own timestamp field ("0xAAA:0xBBB:1:5") and otherwise
recovers the signature string. -/
def recover5 : String → String → Option String :=
  fun m s => if m = "0xAAA:0xBBB:1:5" then none else some s

/-- A concrete configuration (api key "k"). -/
def cfg0 : SecurityConfig :=
  { apiKey := "k", maxRequestsPerMinute := 100, maxTransactionAmount := 10 }

/-- Store with a prepaid balance of 5 for client "c". -/
def stC1 : RedisState := { RedisState.empty with prepaid := [("c", 5)] }

/-- Store with a prepaid balance of 4 for client "c". -/
def stC4 : RedisState := { RedisState.empty with prepaid := [("c", 4)] }

/-- Store with prepaid balances of 5 for clients "c1" and "c2". -/
def stC6 : RedisState :=
  { RedisState.empty with prepaid := [("c1", 5), ("c2", 5)] }

/-- Store with a prepaid balance of 3 for client "c". -/
def stC10 : RedisState := { RedisState.empty with prepaid := [("c", 3)] }

/-- An intent whose signature does not recover to its from address (under
recover0 the recovered address is "0xCCC" while from is "0xAAA"); everything
else is valid against cfg0 and stC1. -/
def reqC1 : SubmitRequest :=
  { fromAddr := "0xAAA", toAddr := "0xBBB", amount := "1",
    signature := "0xCCC", message := "m", nonce := "n1", timestamp := 0,
    apiKey := "k", clientId := "c" }

/-- A fully valid intent (under recover0) for client "c", nonce "n3". -/
def reqC3 : SubmitRequest :=
  { fromAddr := "0xAAA", toAddr := "0xBBB", amount := "1",
    signature := "0xAAA", message := "m", nonce := "n3", timestamp := 0,
    apiKey := "k", clientId := "c" }

/-- A fully valid intent (under recover0) for client "c", nonce "n4". -/
def reqC4 : SubmitRequest :=
  { fromAddr := "0xAAA", toAddr := "0xBBB", amount := "1",
    signature := "0xAAA", message := "m", nonce := "n4", timestamp := 0,
    apiKey := "k", clientId := "c" }

/-- A fully valid intent (under recover5) whose own timestamp field is 5 while
the server receives it at now = 0. -/
def reqC5 : SubmitRequest :=
  { fromAddr := "0xAAA", toAddr := "0xBBB", amount := "1",
    signature := "0xAAA", message := "m", nonce := "n5", timestamp := 5,
    apiKey := "k", clientId := "c" }

/-- A fully valid intent from "0xAAA" (client "c1") with nonce "n6". -/
def reqC6a : SubmitRequest :=
  { fromAddr := "0xAAA", toAddr := "0xBBB", amount := "1",
    signature := "0xAAA", message := "m1", nonce := "n6", timestamp := 0,
    apiKey := "k", clientId := "c1" }

/-- A fully valid intent from the different address "0xDDD" (client "c2")
sharing only the nonce string "n6" with reqC6a. -/
def reqC6b : SubmitRequest :=
  { fromAddr := "0xDDD", toAddr := "0xBBB", amount := "1",
    signature := "0xDDD", message := "m2", nonce := "n6", timestamp := 0,
    apiKey := "k", clientId := "c2" }

/-- A valid intent whose amount "9" exceeds the stored balance 5 of stC1. -/
def reqC9 : SubmitRequest :=
  { fromAddr := "0xAAA", toAddr := "0xBBB", amount := "9",
    signature := "0xAAA", message := "m", nonce := "n9", timestamp := 0,
    apiKey := "k", clientId := "c" }

/-- A queued transaction request that is valid under recover0. -/
def txC9 : TransactionRequest :=
  { id := "T9", fromAddr := "0xAAA", toAddr := "0xBBB", amount := "1",
    signature := "0xAAA", timestamp := 0, priority := 1, retryCount := 0 }

/-- Store whose transaction queue already holds 10000 jobs (the spec's default
max_queue_size). -/
def stBig : RedisState :=
  { RedisState.empty with queue := List.replicate 10000 txC9 }

/-- Store whose transaction queue holds two jobs, for the retry-ordering
witness. -/
def stW8 : RedisState :=
  { RedisState.empty with
    queue := [{ txC9 with id := "Q1" }, { txC9 with id := "Q2" }] }

/-! Theorems. -/

namespace TransactionQueue

/-- Draining with bounded fuel at least the length is reversal. -/
theorem popOrderAux_eq_reverse {α : Type} :
    ∀ (n : Nat) (q : List α), q.length ≤ n → popOrderAux n q = q.reverse := by
  intro n
  induction n with
  | zero =>
    intro q hq
    rw [List.eq_nil_of_length_eq_zero (Nat.le_zero.mp hq)]
    rfl
  | succ n ih =>
    intro q hq
    rcases List.eq_nil_or_concat q with rfl | ⟨l, a, rfl⟩
    · rfl
    · have hl : l.length ≤ n := by
        rw [List.length_concat] at hq
        omega
      simp [popOrderAux, rpop, List.concat_eq_append, List.getLast?_concat,
        List.dropLast_concat, ih l hl]

/-- Repeated RPOP drains a Redis list from its right end: the drain order is
the reverse of the stored list. -/
theorem popOrder_eq_reverse {α : Type} (q : List α) : popOrder q = q.reverse :=
  popOrderAux_eq_reverse q.length q le_rfl

/-- addTransaction succeeds only when the canonical-message signature check
passed. -/
theorem addTransaction_ok_sig (recover : String → String → Option String)
    (r : TransactionRequest) (st st' : RedisState)
    (h : addTransaction recover r st = Except.ok st') :
    validateSignature recover r = true := by
  unfold addTransaction at h
  split at h
  · simp at h
  · rename_i hs
    exact not_not.mp (by simpa using hs)

/-- isReplayAttack never touches the prepaid ledger. -/
theorem isReplayAttack_prepaid (r : TransactionRequest) (st : RedisState) :
    ((isReplayAttack r st).2).prepaid = st.prepaid := by
  unfold isReplayAttack
  split_ifs <;> rfl

/-- addTransaction never touches the prepaid ledger. -/
theorem addTransaction_ok_prepaid (recover : String → String → Option String)
    (r : TransactionRequest) (st st' : RedisState)
    (h : addTransaction recover r st = Except.ok st') :
    st'.prepaid = st.prepaid := by
  unfold addTransaction at h
  split at h
  · simp at h
  · split at h
    · simp at h
    · rename_i st1 heq
      have hp := isReplayAttack_prepaid r st
      rw [heq] at hp
      obtain rfl := (Except.ok.injEq _ _).mp h
      exact hp

end TransactionQueue

namespace SecurityManager

/-- checkRateLimit never touches the prepaid ledger. -/
theorem checkRateLimit_prepaid (cfg : SecurityConfig) (c : String)
    (st : RedisState) : ((checkRateLimit cfg c st).2).prepaid = st.prepaid := by
  unfold checkRateLimit
  split
  · rfl
  · split_ifs <;> rfl

/-- checkReplayAttack never touches the prepaid ledger. -/
theorem checkReplayAttack_prepaid (nonce : String) (ts now : Int)
    (st : RedisState) :
    ((checkReplayAttack nonce ts now st).2).prepaid = st.prepaid := by
  unfold checkReplayAttack
  split_ifs <;> rfl

/-- performSecurityCheck never touches the prepaid ledger. -/
theorem performSecurityCheck_prepaid (parse : String → Int)
    (recover : String → String → Option String) (cfg : SecurityConfig)
    (req : SubmitRequest) (now : Int) (st : RedisState) :
    ((performSecurityCheck parse recover cfg req now st).2).prepaid
      = st.prepaid := by
  unfold performSecurityCheck
  split
  · rfl
  · split
    · rename_i st1 heq
      have h1 := checkRateLimit_prepaid cfg req.clientId st
      rw [heq] at h1
      exact h1
    · rename_i st1 heq
      have h1 := checkRateLimit_prepaid cfg req.clientId st
      rw [heq] at h1
      split
      · rename_i st2 heq2
        have h2 := checkReplayAttack_prepaid req.nonce req.timestamp now st1
        rw [heq2] at h2
        exact h2.trans h1
      · rename_i st2 heq2
        have h2 := checkReplayAttack_prepaid req.nonce req.timestamp now st1
        rw [heq2] at h2
        split_ifs <;> exact h2.trans h1

/-- What a passing security check guarantees: the signature over the
client-supplied message recovered to the from address, the amount is within
policy, and the resulting state holds a sufficient prepaid balance for the
client. -/
theorem performSecurityCheck_eq_none (parse : String → Int)
    (recover : String → String → Option String) (cfg : SecurityConfig)
    (req : SubmitRequest) (now : Int) (st st' : RedisState)
    (h : performSecurityCheck parse recover cfg req now st = (none, st')) :
    validateSignature recover req.message req.signature req.fromAddr = true
    ∧ checkTransactionAmount parse cfg req.amount = true
    ∧ checkPrepaidBalance parse req.clientId req.amount st' = true := by
  unfold performSecurityCheck at h
  split at h
  · simp at h
  · split at h
    · simp at h
    · split at h
      · simp at h
      · split at h
        · simp at h
        · split at h
          · simp at h
          · split at h
            · simp at h
            · rename_i hsig hamt hbal
              obtain ⟨-, rfl⟩ := Prod.mk.injEq .. |>.mp h
              exact ⟨not_not.mp (by simpa using hsig),
                not_not.mp (by simpa using hamt),
                not_not.mp (by simpa using hbal)⟩

/-- When the api-key, rate-limit and replay steps pass but the signature over
the client-supplied message does not recover to the from address, the
security check stops with exactly the "Invalid signature" error. -/
theorem performSecurityCheck_invalid_sig (parse : String → Int)
    (recover : String → String → Option String) (cfg : SecurityConfig)
    (req : SubmitRequest) (now : Int) (st : RedisState)
    (hak : verifyApiKey cfg req.apiKey = true)
    (hrl : (checkRateLimit cfg req.clientId st).1 = true)
    (hrp : (checkReplayAttack req.nonce req.timestamp now
        (checkRateLimit cfg req.clientId st).2).1 = false)
    (hsig : validateSignature recover req.message req.signature req.fromAddr
        = false) :
    (performSecurityCheck parse recover cfg req now st).1
      = some "Invalid signature" := by
  unfold performSecurityCheck
  rw [if_neg (not_not_intro hak)]
  split
  · rename_i st1 heq
    rw [heq] at hrl
    simp at hrl
  · rename_i st1 heq
    rw [heq] at hrp
    have hrp1 : (checkReplayAttack req.nonce req.timestamp now st1).1 = false :=
      hrp
    split
    · rename_i st2 heq2
      rw [heq2] at hrp1
      simp at hrp1
    · rename_i st2 heq2
      rw [if_pos (by simp [hsig])]

end SecurityManager

/-- C3 amended: for every accepted intent the submit handler commits the
prepaid debit immediately AFTER the enqueue (the source enqueues first and
debits second, both before returning success) — the reverse of the claimed
order. -/
theorem c3_amended_enqueue_precedes_debit (parse : String → Int)
    (recover : String → String → Option String) (cfg : SecurityConfig)
    (req : SubmitRequest) (id : String) (now : Int) (st : RedisState)
    (h : (Server.submit parse recover cfg req id now st).1 = SubmitResult.ok id) :
    (Server.submit parse recover cfg req id now st).2.2
      = [Effect.enqueue id, Effect.debit req.clientId req.amount] := by
  rcases hsc : SecurityManager.performSecurityCheck parse recover cfg req now st
    with ⟨e, st1⟩
  cases e with
  | some e => simp [Server.submit, hsc] at h
  | none =>
    cases hadd : TransactionQueue.addTransaction recover
        (Server.mkTransactionRequest req id now) st1 with
    | error e => simp [Server.submit, hsc, hadd] at h
    | ok st2 => simp [Server.submit, hsc, hadd]

/-- Witness for C3 amended at the concrete accepted intent reqC4. -/
theorem c3_amended_enqueue_precedes_debit_witness :
    (Server.submit parse0 recover0 cfg0 reqC4 "JW" 0 stC4).1 = SubmitResult.ok "JW"
    ∧ (Server.submit parse0 recover0 cfg0 reqC4 "JW" 0 stC4).2.2
        = [Effect.enqueue "JW", Effect.debit reqC4.clientId reqC4.amount] :=
  ⟨by decide,
    c3_amended_enqueue_precedes_debit parse0 recover0 cfg0 reqC4 "JW" 0 stC4
      (by decide)⟩

/-- C8: a failed job that still has retries left is re-enqueued at the tail of
the queue: the drain order (repeated RPOP) of the queue after
handleFailedTransaction is the old drain order followed by the retried job,
so the retried job is popped only after every job that was already queued.
(The source LPUSHes the retry and pops with RPOP, which is tail re-insertion
in queue order; there is a single priority class.) -/
theorem c8_retry_reenqueued_at_tail (r : TransactionRequest) (st : RedisState)
    (h : r.retryCount + 1 < 3) :
    TransactionQueue.popOrder (TransactionQueue.handleFailedTransaction r st).queue
      = TransactionQueue.popOrder st.queue
        ++ [{ r with retryCount := r.retryCount + 1 }] := by
  simp [TransactionQueue.handleFailedTransaction, h,
    TransactionQueue.popOrder_eq_reverse, lpush]

/-- Witness for C8 at the concrete job txC9 and the two-job queue stW8. -/
theorem c8_retry_reenqueued_at_tail_witness :
    txC9.retryCount + 1 < 3
    ∧ TransactionQueue.popOrder
        (TransactionQueue.handleFailedTransaction txC9 stW8).queue
      = TransactionQueue.popOrder stW8.queue
        ++ [{ txC9 with retryCount := txC9.retryCount + 1 }] :=
  ⟨by decide, c8_retry_reenqueued_at_tail txC9 stW8 (by decide)⟩

/-- C9 counterexample: with the queue already holding 10000 jobs (the spec's
default max_queue_size), addTransaction still succeeds — there is no
queue_full backpressure anywhere in the enqueue path. -/
theorem c9_counterexample :
    stBig.queue.length = 10000
    ∧ TransactionQueue.addTransaction recover0 txC9 stBig
        = Except.ok { stBig with
            replaySeen := (txC9.fromAddr, txC9.timestamp) :: stBig.replaySeen,
            txStore := txC9.id :: stBig.txStore,
            queue := lpush txC9 stBig.queue } := by
  constructor
  · show (List.replicate 10000 txC9).length = 10000
    exact List.length_replicate ..
  · rfl

/-- C9 amended: addTransaction imposes no queue-size bound: whenever the
canonical signature is valid and the (from, timestamp) replay key is unseen,
the enqueue succeeds regardless of the current queue length — at
max_queue_size exactly as at max_queue_size − 1 — and appends one job. -/
theorem c9_amended_no_queue_bound (recover : String → String → Option String)
    (r : TransactionRequest) (st : RedisState)
    (h1 : TransactionQueue.validateSignature recover r = true)
    (h2 : (r.fromAddr, r.timestamp) ∉ st.replaySeen) :
    TransactionQueue.addTransaction recover r st
      = Except.ok { st with
          replaySeen := (r.fromAddr, r.timestamp) :: st.replaySeen,
          txStore := r.id :: st.txStore, queue := lpush r st.queue }
    ∧ (lpush r st.queue).length = st.queue.length + 1 := by
  constructor
  · simp [TransactionQueue.addTransaction, TransactionQueue.isReplayAttack,
      h1, h2, lpush]
  · simp [lpush]

/-- Witness for C9 amended at the empty store. -/
theorem c9_amended_no_queue_bound_witness :
    TransactionQueue.validateSignature recover0 txC9 = true
    ∧ (txC9.fromAddr, txC9.timestamp) ∉ RedisState.empty.replaySeen
    ∧ TransactionQueue.addTransaction recover0 txC9 RedisState.empty
        = Except.ok { RedisState.empty with
            replaySeen := (txC9.fromAddr, txC9.timestamp)
              :: RedisState.empty.replaySeen,
            txStore := txC9.id :: RedisState.empty.txStore,
            queue := lpush txC9 RedisState.empty.queue } :=
  ⟨by decide, by decide,
    (c9_amended_no_queue_bound recover0 txC9 RedisState.empty (by decide)
      (by decide)).1⟩

/-- C1: the claim "a rejection after the replay/freshness step leaves no
replay record for the intent's nonce" fails on the code: submitting reqC1
(bad signature, all earlier checks passing) is rejected with "Invalid
signature", yet the replay record for nonce "n1" has been created; the ledger
and the queue are indeed untouched.  checkReplayAttack records the nonce
before the signature, amount and prepaid checks run. -/
theorem c1_reject_leaves_replay_record :
    (Server.submit parse0 recover0 cfg0 reqC1 "J1" 0 stC1).1
      = SubmitResult.reject "Invalid signature"
    ∧ "n1" ∈ ((Server.submit parse0 recover0 cfg0 reqC1 "J1" 0 stC1).2.1).nonceSeen
    ∧ ((Server.submit parse0 recover0 cfg0 reqC1 "J1" 0 stC1).2.1).prepaid
        = stC1.prepaid
    ∧ ((Server.submit parse0 recover0 cfg0 reqC1 "J1" 0 stC1).2.1).queue = [] := by
  decide

/-- C3 counterexample: at the accepted concrete intent reqC3 the submit
handler's effect trace is [enqueue, debit]: the enqueue into the queue comes
first and the prepaid debit second, refuting "the debit is committed before
the job is enqueued". -/
theorem c3_counterexample :
    (Server.submit parse0 recover0 cfg0 reqC3 "J3" 0 stC1).1 = SubmitResult.ok "J3"
    ∧ (Server.submit parse0 recover0 cfg0 reqC3 "J3" 0 stC1).2.2
        = [Effect.enqueue "J3", Effect.debit "c" "1"] := by
  decide

/-- C4: the claim "admit followed by rollback leaves the prepaid balance equal
to its value before admission" fails on the code: from a balance of 4,
admitting reqC4 (amount 1) and then executing the rollback endpoint for the
admitted transaction leaves the balance at 3, not 4 — the submit handler never
creates a RollbackPoint and performRollback is a logging stub that re-credits
nothing. -/
theorem c4_rollback_restores_nothing :
    (Server.submit parse0 recover0 cfg0 reqC4 "J4" 0 stC4).1 = SubmitResult.ok "J4"
    ∧ alookup "c" stC4.prepaid = some 4
    ∧ alookup "c"
        (Server.rollbackEndpoint cfg0 "J4" "k"
          ((Server.submit parse0 recover0 cfg0 reqC4 "J4" 0 stC4).2.1)).prepaid
        = some 3 := by
  decide

/-- C5 counterexample: under recover5, the intent reqC5 (timestamp field 5,
received at now = 0) is admitted although recovering the signer over the
canonical message built from the intent's own timestamp
("from:to:amount:timestamp" = "0xAAA:0xBBB:1:5") fails: the queued request's
canonical message uses Date.now(), not the intent's timestamp. -/
theorem c5_counterexample :
    (Server.submit parse0 recover5 cfg0 reqC5 "J5" 0 stC1).1 = SubmitResult.ok "J5"
    ∧ recover5
        (reqC5.fromAddr ++ ":" ++ reqC5.toAddr ++ ":" ++ reqC5.amount ++ ":"
          ++ toString reqC5.timestamp) reqC5.signature = none := by
  decide

/-- C6 counterexample: two valid intents sharing only the nonce string "n6"
but with different from addresses: the first is admitted, the second is
rejected as a replay (the claim says both are admitted), because the replay
record is keyed by the nonce alone. -/
theorem c6_counterexample :
    (Server.submit parse0 recover0 cfg0 reqC6a "J6" 0 stC6).1 = SubmitResult.ok "J6"
    ∧ (Server.submit parse0 recover0 cfg0 reqC6b "J7" 0
        ((Server.submit parse0 recover0 cfg0 reqC6a "J6" 0 stC6).2.1)).1
        = SubmitResult.reject "Replay attack detected"
    ∧ reqC6a.fromAddr ≠ reqC6b.fromAddr ∧ reqC6a.nonce = reqC6b.nonce := by
  decide

/-- C6 amended: replay rejection in the security check is keyed by the nonce
alone, independent of from_address: checkReplayAttack rejects exactly when the
nonce string has already been observed or the timestamp is outside the
300000 ms window; hence of two intents sharing only the nonce string, the
second is rejected as replay even though its from_address differs. -/
theorem c6_amended_replay_keyed_by_nonce (nonce : String) (ts now : Int)
    (st : RedisState) :
    (SecurityManager.checkReplayAttack nonce ts now st).1
      = (decide (nonce ∈ st.nonceSeen) || decide (300000 < (now - ts).natAbs)) := by
  unfold SecurityManager.checkReplayAttack
  split_ifs with h1 h2
  · simp [h1]
  · simp [h1, h2]
  · simp [h1, h2]

/-- C7 counterexample: an intent whose timestamp lies exactly at the
signature-window edge (|now − timestamp| = 300000 ms exactly, here now =
300000 and timestamp = 0) is NOT rejected: the staleness comparison is
strict. -/
theorem c7_counterexample :
    (SecurityManager.checkReplayAttack "n" 0 300000 RedisState.empty).1 = false := by
  decide

/-- C7 amended: an intent whose timestamp lies exactly at the window edge
(|now − timestamp| = 300000 ms) is accepted as fresh whenever its nonce is
unseen; only a strictly larger clock distance rejects. -/
theorem c7_amended_edge_accepts (nonce : String) (ts now : Int)
    (st : RedisState) (h1 : (now - ts).natAbs = 300000)
    (h2 : nonce ∉ st.nonceSeen) :
    (SecurityManager.checkReplayAttack nonce ts now st).1 = false := by
  unfold SecurityManager.checkReplayAttack
  rw [if_neg h2, if_neg (by simp [h1])]

/-- Witness for C7 amended at now = 300000, timestamp = 0, empty store. -/
theorem c7_amended_edge_accepts_witness :
    ((300000 : Int) - 0).natAbs = 300000
    ∧ "n" ∉ RedisState.empty.nonceSeen
    ∧ (SecurityManager.checkReplayAttack "n" 0 300000 RedisState.empty).1 = false :=
  ⟨by decide, by decide,
    c7_amended_edge_accepts "n" 0 300000 RedisState.empty (by decide) (by decide)⟩

/-- C10: the balance endpoint replies "0" for a client with no stored
balance, and replies the stored (nonempty) balance string for a client with
one. -/
theorem c10_balance_endpoint (clientId : String) (st : RedisState) :
    (alookup clientId st.prepaid = none →
      Server.getPrepaidBalance clientId st = "0")
    ∧ ∀ b : Int, alookup clientId st.prepaid = some b → toString b ≠ "" →
        Server.getPrepaidBalance clientId st = toString b := by
  constructor
  · intro h
    unfold Server.getPrepaidBalance
    rw [h]
    rfl
  · intro b hb hne
    unfold Server.getPrepaidBalance
    rw [hb]
    show (if toString b = "" then "0" else toString b) = toString b
    rw [if_neg hne]

/-- Witness for C10 at the absent client "d" and at client "c" with stored
balance 3. -/
theorem c10_balance_endpoint_witness :
    Server.getPrepaidBalance "d" RedisState.empty = "0"
    ∧ Server.getPrepaidBalance "c" stC10 = toString (3 : Int) :=
  ⟨(c10_balance_endpoint "d" RedisState.empty).1 (by decide),
    (c10_balance_endpoint "c" stC10).2 3 (by decide) (by decide)⟩

/-- C5 amended: admission goes through only if the signer recovered from the
client-supplied message field matches from_address case-insensitively AND the
signer recovered from the canonical message "from:to:amount:T" matches
from_address case-insensitively — where T is the server's receipt time
(Date.now()), not the intent's own timestamp field; and when the api-key,
rate-limit and replay steps pass but the client-message recovery mismatches,
the reject is exactly "Invalid signature" (bad_signature). -/
theorem c5_amended_signature_gate (parse : String → Int)
    (recover : String → String → Option String) (cfg : SecurityConfig)
    (req : SubmitRequest) (id : String) (now : Int) (st : RedisState) :
    ((Server.submit parse recover cfg req id now st).1 = SubmitResult.ok id →
      SecurityManager.validateSignature recover req.message req.signature
        req.fromAddr = true
      ∧ TransactionQueue.validateSignature recover
          (Server.mkTransactionRequest req id now) = true)
    ∧ (SecurityManager.verifyApiKey cfg req.apiKey = true →
      (SecurityManager.checkRateLimit cfg req.clientId st).1 = true →
      (SecurityManager.checkReplayAttack req.nonce req.timestamp now
        (SecurityManager.checkRateLimit cfg req.clientId st).2).1 = false →
      SecurityManager.validateSignature recover req.message req.signature
        req.fromAddr = false →
      (Server.submit parse recover cfg req id now st).1
        = SubmitResult.reject "Invalid signature") := by
  constructor
  · intro h
    rcases hsc : SecurityManager.performSecurityCheck parse recover cfg req now st
      with ⟨e, st1⟩
    cases e with
    | some e => simp [Server.submit, hsc] at h
    | none =>
      have hv := SecurityManager.performSecurityCheck_eq_none parse recover cfg
        req now st st1 hsc
      cases hadd : TransactionQueue.addTransaction recover
          (Server.mkTransactionRequest req id now) st1 with
      | error e => simp [Server.submit, hsc, hadd] at h
      | ok st2 =>
        exact ⟨hv.1,
          TransactionQueue.addTransaction_ok_sig recover _ st1 st2 hadd⟩
  · intro hak hrl hrp hsig
    have hinv := SecurityManager.performSecurityCheck_invalid_sig parse recover
      cfg req now st hak hrl hrp hsig
    rcases hsc : SecurityManager.performSecurityCheck parse recover cfg req now st
      with ⟨e, st1⟩
    rw [hsc] at hinv
    have he : e = some "Invalid signature" := hinv
    subst he
    simp [Server.submit, hsc]

/-- Witness for C5 amended: the success direction at the accepted intent
reqC3, and the reject direction at the bad-signature intent reqC1. -/
theorem c5_amended_signature_gate_witness :
    ((Server.submit parse0 recover0 cfg0 reqC3 "J3" 0 stC1).1
        = SubmitResult.ok "J3"
      ∧ SecurityManager.validateSignature recover0 reqC3.message reqC3.signature
          reqC3.fromAddr = true
      ∧ TransactionQueue.validateSignature recover0
          (Server.mkTransactionRequest reqC3 "J3" 0) = true)
    ∧ (Server.submit parse0 recover0 cfg0 reqC1 "J1" 0 stC1).1
        = SubmitResult.reject "Invalid signature" :=
  ⟨⟨by decide,
    (c5_amended_signature_gate parse0 recover0 cfg0 reqC3 "J3" 0 stC1).1
      (by decide)⟩,
    (c5_amended_signature_gate parse0 recover0 cfg0 reqC1 "J1" 0 stC1).2
      (by decide) (by decide) (by decide) (by decide)⟩

/-- A successful association-list lookup returns the value of a stored
entry. -/
theorem alookup_mem {α : Type} (k : String) (m : List (String × α)) (v : α)
    (h : alookup k m = some v) : ∃ p ∈ m, p.2 = v := by
  unfold alookup at h
  split at h
  · rename_i p hfind
    refine ⟨p, List.mem_of_find?_eq_some hfind, ?_⟩
    simpa using h
  · simp at h

/-- Nonnegativity of the ledger only depends on the prepaid field. -/
theorem ledgerNonneg_of_prepaid_eq (st st' : RedisState)
    (h : st'.prepaid = st.prepaid) (hn : ledgerNonneg st) : ledgerNonneg st' := by
  intro p hp
  exact hn p (h ▸ hp)

/-- A debit that was guarded by checkPrepaidBalance keeps every stored balance
nonnegative. -/
theorem deductPrepaidBalance_nonneg (parse : String → Int) (c a : String)
    (st : RedisState) (hn : ledgerNonneg st)
    (hc : SecurityManager.checkPrepaidBalance parse c a st = true) :
    ledgerNonneg (SecurityManager.deductPrepaidBalance parse c a st) := by
  unfold SecurityManager.checkPrepaidBalance at hc
  cases halo : alookup c st.prepaid with
  | none =>
    rw [halo] at hc
    simp at hc
  | some b =>
    rw [halo] at hc
    simp at hc
    have heq : SecurityManager.deductPrepaidBalance parse c a st
        = { st with prepaid := (c, b - parse a) :: st.prepaid } := by
      unfold SecurityManager.deductPrepaidBalance aset
      rw [halo]
    rw [heq]
    intro p hp
    have hp1 : p = (c, b - parse a) ∨ p ∈ st.prepaid := List.mem_cons.mp hp
    rcases hp1 with rfl | hp'
    · exact sub_nonneg.mpr hc
    · exact hn p hp'

/-- A credit of a nonnegative amount keeps every stored balance
nonnegative. -/
theorem addPrepaidBalance_nonneg (parse : String → Int) (c a : String)
    (st : RedisState) (hn : ledgerNonneg st) (ha : 0 ≤ parse a) :
    ledgerNonneg (SecurityManager.addPrepaidBalance parse c a st) := by
  intro p hp
  have hp1 : p = (c, (alookup c st.prepaid).getD 0 + parse a) ∨ p ∈ st.prepaid := by
    simpa [SecurityManager.addPrepaidBalance, aset] using hp
  rcases hp1 with rfl | hp'
  · have h0 : 0 ≤ (alookup c st.prepaid).getD 0 := by
      cases halo : alookup c st.prepaid with
      | none => simp
      | some b =>
        obtain ⟨q, hq, hq2⟩ := alookup_mem c st.prepaid b halo
        simpa using hq2 ▸ hn q hq
    exact add_nonneg h0 ha
  · exact hn p hp'

/-- The submit handler keeps every stored balance nonnegative: the debit on
its success path is guarded (in performSecurityCheck) by the balance being at
least the amount. -/
theorem submit_ledgerNonneg (parse : String → Int)
    (recover : String → String → Option String) (cfg : SecurityConfig)
    (req : SubmitRequest) (id : String) (now : Int) (st : RedisState)
    (hn : ledgerNonneg st) :
    ledgerNonneg ((Server.submit parse recover cfg req id now st).2.1) := by
  rcases hsc : SecurityManager.performSecurityCheck parse recover cfg req now st
    with ⟨e, st1⟩
  have hp1 : st1.prepaid = st.prepaid := by
    have h0 := SecurityManager.performSecurityCheck_prepaid parse recover cfg
      req now st
    rw [hsc] at h0
    exact h0
  cases e with
  | some e =>
    have hss : (Server.submit parse recover cfg req id now st).2.1 = st1 := by
      simp [Server.submit, hsc]
    rw [hss]
    exact ledgerNonneg_of_prepaid_eq st st1 hp1 hn
  | none =>
    have hv := SecurityManager.performSecurityCheck_eq_none parse recover cfg
      req now st st1 hsc
    cases hadd : TransactionQueue.addTransaction recover
        (Server.mkTransactionRequest req id now) st1 with
    | error e2 =>
      have hss : (Server.submit parse recover cfg req id now st).2.1 = st1 := by
        simp [Server.submit, hsc, hadd]
      rw [hss]
      exact ledgerNonneg_of_prepaid_eq st st1 hp1 hn
    | ok st2 =>
      have hp2 : st2.prepaid = st1.prepaid :=
        TransactionQueue.addTransaction_ok_prepaid recover _ st1 st2 hadd
      have hss : (Server.submit parse recover cfg req id now st).2.1
          = SecurityManager.deductPrepaidBalance parse req.clientId req.amount st2 := by
        simp [Server.submit, hsc, hadd]
      rw [hss]
      apply deductPrepaidBalance_nonneg
      · exact ledgerNonneg_of_prepaid_eq st st2 (hp2.trans hp1) hn
      · have hx := hv.2.2
        unfold SecurityManager.checkPrepaidBalance at hx ⊢
        rw [hp2]
        exact hx

/-- The credit endpoint keeps every stored balance nonnegative for
nonnegative amounts. -/
theorem prepaidAdd_nonneg (parse : String → Int) (cfg : SecurityConfig)
    (c a k : String) (st : RedisState) (hn : ledgerNonneg st)
    (ha : 0 ≤ parse a) : ledgerNonneg (Server.prepaidAdd parse cfg c a k st) := by
  unfold Server.prepaidAdd
  split_ifs
  · exact addPrepaidBalance_nonneg parse c a st hn ha
  · exact hn

/-- executeRollback never touches the prepaid ledger. -/
theorem executeRollback_prepaid (id : String) (st : RedisState) :
    ((SecurityManager.executeRollback id st).2).prepaid = st.prepaid := by
  unfold SecurityManager.executeRollback
  split <;> rfl

/-- The rollback endpoint keeps every stored balance nonnegative (it never
touches the ledger at all). -/
theorem rollbackEndpoint_nonneg (cfg : SecurityConfig) (id k : String)
    (st : RedisState) (hn : ledgerNonneg st) :
    ledgerNonneg (Server.rollbackEndpoint cfg id k st) := by
  unfold Server.rollbackEndpoint
  split_ifs
  · exact ledgerNonneg_of_prepaid_eq st _ (executeRollback_prepaid id st) hn
  · exact hn

/-- Every single API operation preserves ledger nonnegativity (credits under
the nonnegative-amount precondition). -/
theorem stepOp_nonneg (parse : String → Int)
    (recover : String → String → Option String) (cfg : SecurityConfig)
    (st : RedisState) (op : LedgerOp) (hn : ledgerNonneg st)
    (hop : creditNonneg parse op = true) :
    ledgerNonneg (stepOp parse recover cfg st op) := by
  cases op with
  | credit c a k =>
    have ha : 0 ≤ parse a := by simpa [creditNonneg] using hop
    exact prepaidAdd_nonneg parse cfg c a k st hn ha
  | submitIntent req id now =>
    exact submit_ledgerNonneg parse recover cfg req id now st hn
  | rollbackOp id k => exact rollbackEndpoint_nonneg cfg id k st hn

/-- Ledger nonnegativity holds after every prefix of an operation
sequence. -/
theorem runOps_take_nonneg (parse : String → Int)
    (recover : String → String → Option String) (cfg : SecurityConfig) :
    ∀ (ops : List LedgerOp) (st0 : RedisState), ledgerNonneg st0 →
      (∀ op ∈ ops, creditNonneg parse op = true) →
      ∀ n, ledgerNonneg (runOps parse recover cfg st0 (ops.take n)) := by
  intro ops
  induction ops with
  | nil =>
    intro st0 h0 _ n
    simpa [runOps] using h0
  | cons op tl ih =>
    intro st0 h0 hops n
    cases n with
    | zero => simpa [runOps] using h0
    | succ n =>
      have h1 := stepOp_nonneg parse recover cfg st0 op h0
        (hops op (List.mem_cons_self op tl))
      have h2 := ih (stepOp parse recover cfg st0 op) h1
        (fun o ho => hops o (List.mem_cons_of_mem op ho)) n
      simpa [runOps] using h2

/-- An intent whose amount exceeds the stored balance is not admitted and
leaves the ledger untouched. -/
theorem submit_insufficient (parse : String → Int)
    (recover : String → String → Option String) (cfg : SecurityConfig)
    (req : SubmitRequest) (id : String) (now : Int) (st : RedisState) (b : Int)
    (hb : alookup req.clientId st.prepaid = some b)
    (hlt : b < parse req.amount) :
    (Server.submit parse recover cfg req id now st).1 ≠ SubmitResult.ok id
    ∧ ((Server.submit parse recover cfg req id now st).2.1).prepaid
        = st.prepaid := by
  rcases hsc : SecurityManager.performSecurityCheck parse recover cfg req now st
    with ⟨e, st1⟩
  have hp1 : st1.prepaid = st.prepaid := by
    have h0 := SecurityManager.performSecurityCheck_prepaid parse recover cfg
      req now st
    rw [hsc] at h0
    exact h0
  cases e with
  | none =>
    exfalso
    have hv := SecurityManager.performSecurityCheck_eq_none parse recover cfg
      req now st st1 hsc
    have hx := hv.2.2
    unfold SecurityManager.checkPrepaidBalance at hx
    rw [hp1, hb] at hx
    simp at hx
    omega
  | some e =>
    constructor
    · simp [Server.submit, hsc]
    · have hss : (Server.submit parse recover cfg req id now st).2.1 = st1 := by
        simp [Server.submit, hsc]
      rw [hss]
      exact hp1

/-- C2: over any sequence of credit, submit and rollback operations whose
credited amounts are nonnegative (the spec's precondition on amounts), every
client's stored prepaid balance is ≥ 0 after every prefix (every observable
point); and an intent whose amount exceeds the client's stored balance is not
admitted and leaves the ledger unchanged. -/
theorem c2_ledger_nonneg (parse : String → Int)
    (recover : String → String → Option String) (cfg : SecurityConfig)
    (st0 : RedisState) (ops : List LedgerOp) (h0 : ledgerNonneg st0)
    (hops : ∀ op ∈ ops, creditNonneg parse op = true) :
    (∀ n, ledgerNonneg (runOps parse recover cfg st0 (ops.take n)))
    ∧ ∀ (req : SubmitRequest) (id : String) (now b : Int),
        alookup req.clientId st0.prepaid = some b → b < parse req.amount →
        (Server.submit parse recover cfg req id now st0).1 ≠ SubmitResult.ok id
        ∧ ((Server.submit parse recover cfg req id now st0).2.1).prepaid
            = st0.prepaid :=
  ⟨runOps_take_nonneg parse recover cfg ops st0 h0 hops,
    fun req id now b hb hlt =>
      submit_insufficient parse recover cfg req id now st0 b hb hlt⟩

/-- Witness for C2: a concrete credit-submit-rollback run from balance 5
keeps the ledger nonnegative at its final observable point, and the concrete
over-balance intent reqC9 (amount 9 against balance 5) is not admitted. -/
theorem c2_ledger_nonneg_witness :
    ledgerNonneg (runOps parse0 recover0 cfg0 stC1
      ([LedgerOp.credit "c" "1" "k", LedgerOp.submitIntent reqC3 "JW2" 0,
        LedgerOp.rollbackOp "JW2" "k"].take 3))
    ∧ (Server.submit parse0 recover0 cfg0 reqC9 "J9" 0 stC1).1
        ≠ SubmitResult.ok "J9" :=
  ⟨(c2_ledger_nonneg parse0 recover0 cfg0 stC1
      [LedgerOp.credit "c" "1" "k", LedgerOp.submitIntent reqC3 "JW2" 0,
        LedgerOp.rollbackOp "JW2" "k"]
      (by unfold ledgerNonneg; decide) (by decide)).1 3,
    ((c2_ledger_nonneg parse0 recover0 cfg0 stC1 [] (by unfold ledgerNonneg; decide)
      (by decide)).2 reqC9 "J9" 0 5 (by decide) (by decide)).1⟩

end Relayer
